import Mathlib

set_option autoImplicit false

/-
Verification of lib/ansible/module_utils/k8s/common.py (K8sAnsibleMixin):
the selective diff engine (diff_objects / get_shared_attrs), the auth
resolver (get_api_client / client_from_kubeconfig), the alias normalizer
(remove_aliases) and the resource document loader
(load_resource_definitions). External collaborators (the dictdiffer
library, the kubernetes client library, the file system and the YAML
parser) are modelled from the spec and passed in as parameters.
-/

namespace K8sCommon

/-- A Python value as it appears in the nested resource mappings handled by
diff_objects: the missing sentinel (Python None), booleans, integers,
strings, and nested string-keyed mappings. A mapping is a list of
key-value pairs in insertion order; a well-formed Python dict has no
duplicate keys. -/
inductive Val where
  | none : Val
  | bool (b : Bool) : Val
  | int (n : Int) : Val
  | str (s : String) : Val
  | dict (d : List (String × Val)) : Val

mutual

/-- Python equality on values as the diff uses it on leaves: None equals
only None, booleans compare with integers through their numeric value
(Python bool is an int subtype), strings compare by content, dicts entry
by entry. -/
def Val.beq : Val → Val → Bool
  | .none, .none => true
  | .bool a, .bool b => a == b
  | .bool a, .int n => (if a then (1 : Int) else 0) == n
  | .int n, .bool a => n == (if a then (1 : Int) else 0)
  | .int a, .int b => a == b
  | .str a, .str b => a == b
  | .dict a, .dict b => Val.beqList a b
  | _, _ => false

/-- Entrywise Python equality on the entry lists of two dicts. -/
def Val.beqList : List (String × Val) → List (String × Val) → Bool
  | [], [] => true
  | (k1, v1) :: r1, (k2, v2) :: r2 => k1 == k2 && Val.beq v1 v2 && Val.beqList r1 r2
  | _, _ => false

end

/-- Python `o1.get(k, dflt)`: defined when `o1` is a dict, returning the
value at `k` or the default; any other receiver has no `get` attribute, so
Python raises AttributeError, modelled as an error value. -/
def pyGet (o1 : Val) (k : String) (dflt : Val) : Except String Val :=
  match o1 with
  | .dict d =>
    match d.find? (fun p => p.1 == k) with
    | some p => .ok p.2
    | Option.none => .ok dflt
  | _ => .error "AttributeError"

/-- The inner helper of diff_objects (source get_shared_attrs): projects
`o1` onto the key shape of `o2`: for a nested dict value it recurses from
`o1.get(k, \x7b\x7d)`, for any other value it takes `o1.get(k)` (missing
sentinel default). An AttributeError raised by `.get` on a non-dict
receiver propagates as an error. -/
def get_shared_attrs (o1 : Val) : List (String × Val) → Except String (List (String × Val))
  | [] => .ok []
  | (k, v) :: rest =>
    match v with
    | .dict d => do
      let sub ← pyGet o1 k (.dict [])
      let inner ← get_shared_attrs sub d
      let tail ← get_shared_attrs o1 rest
      .ok ((k, .dict inner) :: tail)
    | _ => do
      let x ← pyGet o1 k .none
      let tail ← get_shared_attrs o1 rest
      .ok ((k, x) :: tail)
termination_by l => sizeOf l
decreasing_by all_goals (simp_wf; try omega)

/-- The kind of one FieldChange of a DiffResult. -/
inductive ChangeKind where
  | added : ChangeKind
  | removed : ChangeKind
  | changed : ChangeKind
  deriving DecidableEq

/-- One entry of a DiffResult: the path of keys from the root, the kind of
change, the projection-side (existing) value as oldVal and the new-side
value as newVal. -/
structure FieldChange where
  path : List String
  kind : ChangeKind
  oldVal : Val
  newVal : Val

mutual

/-- Modelled from the spec: step 2 of the selective diff engine, performed
in the source by the external dictdiffer library. It compares the new-side
value against the projection: mappings key by key recursively; any other
divergence, including a mapping versus scalar type mismatch, is one
FieldChange of kind changed at that path; a key on only one side is
reported as added or removed with the missing sentinel on the absent
side. -/
def structDiff (path : List String) : Val → Val → List FieldChange
  | Val.dict dn, Val.dict dp =>
      structDiffEntries path dp dn ++
      (dp.filter (fun p => dn.all (fun q => q.1 != p.1))).map
        (fun p => { path := path ++ [p.1], kind := ChangeKind.removed,
                    oldVal := p.2, newVal := Val.none })
  | vn, vp =>
      if Val.beq vn vp then []
      else [{ path := path, kind := ChangeKind.changed, oldVal := vp, newVal := vn }]
termination_by vn _ => sizeOf vn
decreasing_by all_goals (simp_wf; try omega)

/-- Modelled from the spec: the key-by-key pass of structDiff over the
new-side entries, looking each key up in the projection side `dp`. -/
def structDiffEntries (path : List String) (dp : List (String × Val)) :
    List (String × Val) → List FieldChange
  | [] => []
  | (k, vn) :: rest =>
      (match dp.find? (fun p => p.1 == k) with
       | some p => structDiff (path ++ [k]) vn p.2
       | Option.none =>
           [{ path := path ++ [k], kind := ChangeKind.added,
              oldVal := Val.none, newVal := vn }]) ++
      structDiffEntries path dp rest
termination_by l => sizeOf l
decreasing_by all_goals (simp_wf; try omega)

end

/-- The static method diff_objects: builds the projection of `existing`
onto the key shape of `new` with get_shared_attrs, computes the structural
diff of `new` against the projection, and returns the pair
(match, diffs) where match is true iff the diff list is empty. An
AttributeError raised inside get_shared_attrs propagates. -/
def diff_objects (existing new : List (String × Val)) :
    Except String (Bool × List FieldChange) := do
  let shared ← get_shared_attrs (Val.dict existing) new
  let diffs := structDiff [] (Val.dict new) (Val.dict shared)
  .ok (diffs.length == 0, diffs)

/-- Python `l.get(k, dflt)` on a dict known to be a dict, as a total
function on its entry list. -/
def lookupD (l : List (String × Val)) (k : String) (dflt : Val) : Val :=
  match l.find? (fun p => p.1 == k) with
  | some p => p.2
  | Option.none => dflt

/-- States that get_shared_attrs reaches no AttributeError on `o2` with
receiver `o1`: whenever `o2` is non-empty its receiver is a dict, at every
nested mapping value the recursion from `o1.get(k, \x7b\x7d)` is safe
again, and so every `.get` call has a dict receiver. -/
def gsaSafe (o1 : Val) : List (String × Val) → Bool
  | [] => true
  | (k, v) :: rest =>
    match o1 with
    | .dict l =>
      (match v with
       | .dict d => gsaSafe (lookupD l k (.dict [])) d
       | _ => true) && gsaSafe o1 rest
    | _ => false
termination_by l => sizeOf l
decreasing_by all_goals (simp_wf; try omega)

/-- The value stored in one attribute of the kubernetes client
Configuration object by get_api_client: a plain string, or the header
dict installed for an explicitly supplied api_key. -/
inductive AttrVal where
  | str (s : String) : AttrVal
  | authHeader (h : List (String × String)) : AttrVal
  deriving DecidableEq

/-- Modelled from the spec: the kubernetes client Configuration object is
external; this is the subset of its attributes that get_api_client writes
through setattr, every one initially unset. -/
structure Configuration where
  kubeconfig : Option AttrVal := Option.none
  context : Option AttrVal := Option.none
  host : Option AttrVal := Option.none
  api_key : Option AttrVal := Option.none
  username : Option AttrVal := Option.none
  password : Option AttrVal := Option.none
  verify_ssl : Option AttrVal := Option.none
  ssl_ca_cert : Option AttrVal := Option.none
  cert_file : Option AttrVal := Option.none
  key_file : Option AttrVal := Option.none

/-- The keys of AUTH_ARG_SPEC, in source order: the recognized auth
fields. -/
def authArgs : List String :=
  ["kubeconfig", "context", "host", "api_key", "username", "password",
   "verify_ssl", "ssl_ca_cert", "cert_file", "key_file"]

/-- Python `setattr(configuration, key, v)` for the recognized auth field
names. -/
def setAttr (c : Configuration) (key : String) (v : AttrVal) : Configuration :=
  if key = "kubeconfig" then { c with kubeconfig := some v }
  else if key = "context" then { c with context := some v }
  else if key = "host" then { c with host := some v }
  else if key = "api_key" then { c with api_key := some v }
  else if key = "username" then { c with username := some v }
  else if key = "password" then { c with password := some v }
  else if key = "verify_ssl" then { c with verify_ssl := some v }
  else if key = "ssl_ca_cert" then { c with ssl_ca_cert := some v }
  else if key = "cert_file" then { c with cert_file := some v }
  else if key = "key_file" then { c with key_file := some v }
  else c

/-- The attribute of the configuration named by a recognized auth field. -/
def getAttr (c : Configuration) (key : String) : Option AttrVal :=
  if key = "kubeconfig" then c.kubeconfig
  else if key = "context" then c.context
  else if key = "host" then c.host
  else if key = "api_key" then c.api_key
  else if key = "username" then c.username
  else if key = "password" then c.password
  else if key = "verify_ssl" then c.verify_ssl
  else if key = "ssl_ca_cert" then c.ssl_ca_cert
  else if key = "cert_file" then c.cert_file
  else if key = "key_file" then c.key_file
  else Option.none

/-- Python str.upper for the ASCII auth field names, written on the
character list so that it evaluates inside the kernel. -/
def pyUpper (s : String) : String := String.mk (s.data.map Char.toUpper)

/-- The configuration-building loop of get_api_client (source lines
117-127): iterates the auth mapping in order; a recognized key with a
non-None value is written to the configuration, api_key wrapped as the
authorization Bearer header dict; a recognized key present with value
None is instead looked up in the environment as K8S_AUTH_ followed by the
upper-cased key, and the bare environment string is written when the
variable is set. Keys absent from the mapping are never visited. -/
def buildConfiguration (auth : List (String × Option String))
    (env : String → Option String) : Configuration :=
  auth.foldl
    (fun conf kv =>
      if kv.1 ∈ authArgs then
        match kv.2 with
        | some v =>
          if kv.1 = "api_key" then
            setAttr conf kv.1 (.authHeader [("authorization", "Bearer " ++ v)])
          else setAttr conf kv.1 (.str v)
        | Option.none =>
          match env ("K8S_AUTH_" ++ pyUpper kv.1) with
          | some ev => setAttr conf kv.1 (.str ev)
          | Option.none => conf
      else conf)
    {}

/-- Python `auth.get(k)`: the stored value at `k`, which may itself be
None, or None when the key is absent. -/
def authGet (auth : List (String × Option String)) (k : String) : Option String :=
  match auth.find? (fun p => p.1 == k) with
  | some p => p.2
  | Option.none => Option.none

/-- Python truthiness of an optional string parameter value: None and the
empty string are falsy. -/
def truthy : Option String → Bool
  | Option.none => false
  | some s => s != ""

/-- The auth method selection of get_api_client (source lines 131-138):
first match wins among basic-auth params, bearer params, file, default,
testing Python truthiness of auth.get values only. -/
def auth_method (auth : List (String × Option String)) : String :=
  if truthy (authGet auth "username") && truthy (authGet auth "password")
      && truthy (authGet auth "host") then "params"
  else if truthy (authGet auth "api_key") && truthy (authGet auth "host") then "params"
  else if truthy (authGet auth "kubeconfig") || truthy (authGet auth "context") then "file"
  else "default"

/-- The branch of the auth method selection that fires, numbered in source
order: 1 the basic-auth params branch, 2 the bearer params branch, 3 the
file branch, 4 the default branch. -/
def auth_method_rule (auth : List (String × Option String)) : Nat :=
  if truthy (authGet auth "username") && truthy (authGet auth "password")
      && truthy (authGet auth "host") then 1
  else if truthy (authGet auth "api_key") && truthy (authGet auth "host") then 2
  else if truthy (authGet auth "kubeconfig") || truthy (authGet auth "context") then 3
  else 4

/-- The observable outcome of get_api_client up to the client-object
construction done by the external kubernetes library: the configuration
it installs as the process-wide default, and the chosen auth method. The
auth argument is the mapping after the source's fall back from empty
kwargs to self.params. -/
def get_api_client (auth : List (String × Option String))
    (env : String → Option String) : Configuration × String :=
  (buildConfiguration auth env, auth_method auth)

/-- Modelled from the spec: the outcome of the external
kubernetes.config.new_client_from_config call for a given config file and
context: a loaded client, an IOError (file not found), a ConfigException
(config invalid), or any other exception. -/
inductive LoadOutcome where
  | ok (client : String) : LoadOutcome
  | ioError (msg : String) : LoadOutcome
  | configException (msg : String) : LoadOutcome
  | otherError (msg : String) : LoadOutcome

/-- The client value produced by client_from_kubeconfig: the client the
external loader built, or the empty default ApiClient fallback. -/
inductive ClientResult where
  | loaded (client : String) : ClientResult
  | emptyDefault : ClientResult
  deriving DecidableEq

/-- The client_from_kubeconfig method (source lines 154-163): calls the
external loader; on IOError or ConfigException it returns the empty
default ApiClient when the config file reference is falsy (None or the
empty path) and re-raises the error otherwise; any other exception
propagates. -/
def client_from_kubeconfig (loader : Option String → Option String → LoadOutcome)
    (config_file context : Option String) : Except String ClientResult :=
  match loader config_file context with
  | .ok c => .ok (.loaded c)
  | .ioError m => if truthy config_file then .error m else .ok .emptyDefault
  | .configException m => if truthy config_file then .error m else .ok .emptyDefault
  | .otherError m => .error m

/-- Python `if alias in params: params.pop(alias)` on the params mapping:
removes the entry at the alias key when one is present. -/
def eraseKey (ps : List (String × Val)) (a : String) : List (String × Val) :=
  if ps.any (fun p => p.1 == a) then ps.eraseP (fun p => p.1 == a) else ps

/-- The inner loop of remove_aliases: pops every alias of one argspec
entry from the params mapping. -/
def eraseAliases (ps : List (String × Val)) (aliases : List String) :
    List (String × Val) :=
  aliases.foldl eraseKey ps

/-- The remove_aliases method (source lines 165-173): for every argspec
entry, pops each declared alias key from the params mapping when present;
entries declaring no aliases contribute nothing. The in-place mutation of
self.params is modelled by returning the updated mapping. -/
def remove_aliases (argspec : List (String × List String))
    (params : List (String × Val)) : List (String × Val) :=
  argspec.foldl (fun ps e => eraseAliases ps e.2) params

/-- The alias table of the merged argspec (COMMON_ARG_SPEC then
AUTH_ARG_SPEC): each canonical key with its declared aliases, the empty
list for entries declaring none. -/
def argspecAliases : List (String × List String) :=
  [("state", []), ("force", []),
   ("resource_definition", ["definition", "inline"]),
   ("src", []), ("kind", []), ("name", []), ("namespace", []),
   ("api_version", ["api", "version"]),
   ("kubeconfig", []), ("context", []), ("host", []), ("api_key", []),
   ("username", []), ("password", []), ("verify_ssl", []),
   ("ssl_ca_cert", []), ("cert_file", []), ("key_file", [])]

/-- Modelled from the spec: what the external file system and YAML parser
yield for the file at a path: no file there, a readable file parsing to a
list of documents, or a file whose read or parse raises (IOError or
YAMLError). -/
inductive FileOutcome where
  | absent : FileOutcome
  | docs (ds : List Val) : FileOutcome
  | unreadable (msg : String) : FileOutcome

/-- The two fail_json failures of load_resource_definitions: the
missing-path failure and the read-or-parse failure, each carrying the
message the source formats. -/
inductive LoadError where
  | pathError (msg : String) : LoadError
  | parseError (msg : String) : LoadError
  deriving DecidableEq

/-- The load_resource_definitions method (source lines 175-186): path
normalization, the file system and the YAML parser are external, passed
as the normalization function and the per-path outcome; the method
normalizes the path, fails when the normalized path does not exist, fails
when reading or parsing raises, and otherwise returns the parsed
documents in document order. -/
def load_resource_definitions (normpath : String → String)
    (fs : String → FileOutcome) (src : String) : Except LoadError (List Val) :=
  let path := normpath src
  match fs path with
  | .absent => .error (.pathError ("Error accessing " ++ path ++ ". Does the file exist?"))
  | .unreadable m => .error (.parseError ("Error loading resource_definition: " ++ m))
  | .docs ds => .ok ds

/-- An environment holding only K8S_AUTH_HOST. -/
def envHostOnly : String → Option String :=
  fun k => if k = "K8S_AUTH_HOST" then some "example.com" else Option.none

/-- An environment holding K8S_AUTH_USERNAME, K8S_AUTH_PASSWORD and
K8S_AUTH_HOST. -/
def envBasicTriple : String → Option String :=
  fun k =>
    if k = "K8S_AUTH_USERNAME" then some "u"
    else if k = "K8S_AUTH_PASSWORD" then some "p"
    else if k = "K8S_AUTH_HOST" then some "h"
    else Option.none

/-- An environment holding only K8S_AUTH_API_KEY. -/
def envApiKeyOnly : String → Option String :=
  fun k => if k = "K8S_AUTH_API_KEY" then some "secret-token" else Option.none

/-- The empty environment. -/
def envEmpty : String → Option String := fun _ => Option.none

/-- An auth mapping with every recognized field present but None, as the
host module passes it when no auth option was supplied. -/
def authAllNone : List (String × Option String) :=
  [("kubeconfig", Option.none), ("context", Option.none), ("host", Option.none),
   ("api_key", Option.none), ("username", Option.none), ("password", Option.none),
   ("verify_ssl", Option.none), ("ssl_ca_cert", Option.none),
   ("cert_file", Option.none), ("key_file", Option.none)]

/-- A kubeconfig loader whose load always raises IOError. -/
def loaderIO : Option String → Option String → LoadOutcome :=
  fun _ _ => .ioError "not found"

/-- A kubeconfig loader whose load always raises an error that is neither
IOError nor ConfigException. -/
def loaderOther : Option String → Option String → LoadOutcome :=
  fun _ _ => .otherError "boom"

/-- A path normalization marking its input. -/
def normMark : String → String := fun s => "norm:" ++ s

/-- A file system holding one two-document file at the normalized path of
a.yml and nothing else. -/
def fsTwoDocs : String → FileOutcome :=
  fun p => if p = "norm:a.yml" then .docs [Val.int 1, Val.int 2] else .absent

/-- A file system holding one zero-document file at the normalized path
of empty.yml, one malformed file at the normalized path of bad.yml, and
nothing else. -/
def fsEmptyAndBad : String → FileOutcome :=
  fun p =>
    if p = "norm:empty.yml" then .docs []
    else if p = "norm:bad.yml" then .unreadable "mapping values are not allowed here"
    else .absent

end K8sCommon

namespace K8sCommon

/-- Python get on a dict receiver never raises and yields the stored
value or the default. -/
theorem pyGet_dict (l : List (String × Val)) (k : String) (dflt : Val) :
    pyGet (Val.dict l) k dflt = .ok (lookupD l k dflt) := by
  cases h : l.find? (fun p => p.1 == k) <;> simp [pyGet, lookupD, h]

/-- C3: diff_objects with existing empty and new holding one nested
mapping returns match false and exactly one FieldChange at path a b, the
missing sentinel as old value and 1 as new value. -/
theorem c3_missing_nested_key_is_change :
    diff_objects [] [("a", Val.dict [("b", Val.int 1)])] =
      .ok (false, [{ path := ["a", "b"], kind := ChangeKind.changed,
                     oldVal := Val.none, newVal := Val.int 1 }]) := by
  simp [diff_objects, get_shared_attrs, pyGet, structDiff, structDiffEntries,
        List.find?, Bind.bind, Except.bind, Val.beq]

/-- C7: keys present only in existing never affect the result: an empty
new matches any existing, and an existing with extra keys matches a new
restricted to a subset of them. -/
theorem c7_existing_only_keys_dropped :
    (∀ existing : List (String × Val), diff_objects existing [] = .ok (true, [])) ∧
    diff_objects [("a", Val.int 1), ("b", Val.int 2)] [("a", Val.int 1)] =
      .ok (true, []) := by
  constructor
  · intro existing
    simp [diff_objects, get_shared_attrs, structDiff, structDiffEntries,
          Bind.bind, Except.bind]
  · simp [diff_objects, get_shared_attrs, pyGet, structDiff, structDiffEntries,
          List.find?, Bind.bind, Except.bind, Val.beq]

/-- C6: with username, password and host all present the first selection
rule fires and the method is params whatever api_key holds, so api_key is
ignored for method selection. -/
theorem c6_rule_one_precedes_rule_two (k : Option String) :
    auth_method [("username", some "u"), ("password", some "p"),
                 ("host", some "h"), ("api_key", k)] = "params" ∧
    auth_method_rule [("username", some "u"), ("password", some "p"),
                      ("host", some "h"), ("api_key", k)] = 1 :=
  ⟨rfl, rfl⟩

/-- C5: an explicitly supplied api_key is installed wrapped as the
authorization Bearer header dict, but an api_key taken from the
environment fallback is installed as the bare string, which contradicts
the claim that the token is never stored as the bare key. -/
theorem c5_env_api_key_stored_bare :
    (get_api_client [("api_key", some "secret-token")] envEmpty).1.api_key =
      some (.authHeader [("authorization", "Bearer secret-token")]) ∧
    (get_api_client [("api_key", Option.none)] envApiKeyOnly).1.api_key =
      some (.str "secret-token") :=
  ⟨rfl, rfl⟩

/-- C8: method selection reads only the explicit auth mapping: with every
recognized field absent or None the chosen method is default under any
environment, while the environment values are still applied to the
configuration object. -/
theorem c8_method_ignores_environment :
    (∀ env : String → Option String,
      (get_api_client authAllNone env).2 = "default" ∧
      (get_api_client [] env).2 = "default") ∧
    (get_api_client authAllNone envBasicTriple).2 = "default" ∧
    (get_api_client authAllNone envBasicTriple).1.username = some (.str "u") ∧
    (get_api_client authAllNone envBasicTriple).1.password = some (.str "p") ∧
    (get_api_client authAllNone envBasicTriple).1.host = some (.str "h") :=
  ⟨fun _ => ⟨rfl, rfl⟩, rfl, rfl, rfl, rfl⟩

/-- C2 fails as stated: with host absent from the auth mapping and
K8S_AUTH_HOST set to example.com, the configuration loop never visits the
host field, so the environment value is not applied and the resolved host
stays unset instead of equalling example.com. -/
theorem c2_counterexample_absent_key_skips_env :
    (get_api_client [] envHostOnly).1.host = Option.none :=
  rfl

/-- C2 amended: for every recognized auth field present in the auth
mapping with value None, the configuration loop consults the environment
variable K8S_AUTH_ followed by the upper-cased field name and installs
its value when set, and an explicitly supplied non-None value always
takes precedence over the environment; a field absent from the mapping is
never looked up. -/
theorem c2_env_fallback_for_none_valued_keys (key : String) (hk : key ∈ authArgs)
    (env : String → Option String) (v : String)
    (hv : env ("K8S_AUTH_" ++ pyUpper key) = some v) :
    getAttr (buildConfiguration [(key, Option.none)] env) key = some (.str v) ∧
    ∀ w : String, key ≠ "api_key" →
      getAttr (buildConfiguration [(key, some w)] env) key = some (.str w) := by
  fin_cases hk <;>
    exact ⟨by simp [buildConfiguration, authArgs, setAttr, getAttr, hv],
           fun w hw => by
             first
               | exact absurd rfl hw
               | simp [buildConfiguration, authArgs, setAttr, getAttr]⟩

/-- Witness for the amended C2: with host mapped to None and K8S_AUTH_HOST
set to example.com, the resolved configuration host is example.com. -/
theorem c2_env_fallback_witness :
    getAttr (buildConfiguration [("host", Option.none)] envHostOnly) "host" =
      some (.str "example.com") :=
  (c2_env_fallback_for_none_valued_keys "host" (by simp [authArgs])
    envHostOnly "example.com" rfl).1

/-- C4: failure semantics of client_from_kubeconfig: with a falsy config
file reference an IOError from loading the default config yields the
empty default client instead of failing, an error that is neither IOError
nor ConfigException always propagates, and with an explicit config file
every load error propagates. -/
theorem c4_kubeconfig_failure_semantics
    (loader : Option String → Option String → LoadOutcome)
    (file ctx : Option String) :
    (∀ m, loader file ctx = .ioError m → truthy file = false →
      client_from_kubeconfig loader file ctx = .ok .emptyDefault) ∧
    (∀ m, loader file ctx = .otherError m →
      client_from_kubeconfig loader file ctx = .error m) ∧
    (∀ m, truthy file = true →
      loader file ctx = .ioError m ∨ loader file ctx = .configException m ∨
        loader file ctx = .otherError m →
      client_from_kubeconfig loader file ctx = .error m) := by
  refine ⟨fun m hl hf => ?_, fun m hl => ?_, fun m hf hl => ?_⟩
  · simp [client_from_kubeconfig, hl, hf]
  · simp [client_from_kubeconfig, hl]
  · rcases hl with hl | hl | hl <;> simp [client_from_kubeconfig, hl, hf]

/-- Witness for C4: the fallback on a missing default config, the
propagation of an unrelated error, and the propagation of IOError when an
explicit path was given, at concrete loaders. -/
theorem c4_kubeconfig_failure_witness :
    client_from_kubeconfig loaderIO Option.none Option.none = .ok .emptyDefault ∧
    client_from_kubeconfig loaderOther Option.none Option.none = .error "boom" ∧
    client_from_kubeconfig loaderIO (some "/tmp/kc") Option.none = .error "not found" :=
  ⟨(c4_kubeconfig_failure_semantics loaderIO Option.none Option.none).1
      "not found" rfl rfl,
   (c4_kubeconfig_failure_semantics loaderOther Option.none Option.none).2.1
      "boom" rfl,
   (c4_kubeconfig_failure_semantics loaderIO (some "/tmp/kc") Option.none).2.2
      "not found" rfl (Or.inl rfl)⟩

/-- C10: the loader normalizes the path first, fails with the path error
when the normalized path does not exist, fails with the parse error when
the content does not read or parse, and otherwise returns the parsed
documents as is, in document order. -/
theorem c10_loader_contract (normpath : String → String)
    (fs : String → FileOutcome) (src : String) :
    (fs (normpath src) = .absent →
      load_resource_definitions normpath fs src =
        .error (.pathError ("Error accessing " ++ normpath src ++
          ". Does the file exist?"))) ∧
    (∀ m, fs (normpath src) = .unreadable m →
      load_resource_definitions normpath fs src =
        .error (.parseError ("Error loading resource_definition: " ++ m))) ∧
    (∀ ds, fs (normpath src) = .docs ds →
      load_resource_definitions normpath fs src = .ok ds) := by
  refine ⟨fun h => ?_, fun m h => ?_, fun ds h => ?_⟩ <;>
    simp [load_resource_definitions, h]

/-- Witness for C10: a missing path fails with the path error, a
malformed file fails with the parse error, a two-document file yields the
two documents in order, and a zero-document file yields the empty
sequence. -/
theorem c10_loader_witness :
    load_resource_definitions normMark fsTwoDocs "missing.yml" =
      .error (.pathError "Error accessing norm:missing.yml. Does the file exist?") ∧
    load_resource_definitions normMark fsEmptyAndBad "bad.yml" =
      .error (.parseError
        "Error loading resource_definition: mapping values are not allowed here") ∧
    load_resource_definitions normMark fsTwoDocs "a.yml" = .ok [Val.int 1, Val.int 2] ∧
    load_resource_definitions normMark fsEmptyAndBad "empty.yml" = .ok [] :=
  ⟨(c10_loader_contract normMark fsTwoDocs "missing.yml").1 rfl,
   (c10_loader_contract normMark fsEmptyAndBad "bad.yml").2.1
      "mapping values are not allowed here" rfl,
   (c10_loader_contract normMark fsTwoDocs "a.yml").2.2 [Val.int 1, Val.int 2] rfl,
   (c10_loader_contract normMark fsEmptyAndBad "empty.yml").2.2 [] rfl⟩

/-- C1 fails as stated: with existing holding the scalar 5 at a and new
holding a non-empty nested mapping there, get_shared_attrs calls .get on
the integer and Python raises AttributeError, so diff_objects raises
instead of returning a FieldChange of kind changed. -/
theorem c1_counterexample_type_mismatch_raises :
    diff_objects [("a", Val.int 5)] [("a", Val.dict [("b", Val.int 1)])] =
      .error "AttributeError" := by
  simp [diff_objects, get_shared_attrs, pyGet, List.find?, Bind.bind, Except.bind]

/-- A safe projection succeeds: whenever gsaSafe holds, get_shared_attrs
reaches no AttributeError and returns a projection. -/
theorem gsa_ok (o1 : Val) (l : List (String × Val)) (h : gsaSafe o1 l = true) :
    ∃ r, get_shared_attrs o1 l = .ok r := by
  induction o1, l using gsaSafe.induct with
  | case1 o1 => exact ⟨[], by simp [get_shared_attrs]⟩
  | case2 k v rest dd ihInner ihRest =>
    cases v with
    | dict d =>
      rw [gsaSafe.eq_2, Bool.and_eq_true] at h
      obtain ⟨inner, hin⟩ := ihInner h.1
      obtain ⟨tail, htl⟩ := ihRest h.2
      exact ⟨(k, .dict inner) :: tail,
        by simp [get_shared_attrs, pyGet_dict, hin, htl, Bind.bind, Except.bind]⟩
    | none =>
      rw [gsaSafe.eq_3 k Val.none rest dd (fun _ hd => Val.noConfusion hd),
        Bool.true_and] at h
      obtain ⟨tail, htl⟩ := ihRest h
      exact ⟨(k, lookupD dd k .none) :: tail,
        by simp [get_shared_attrs, pyGet_dict, htl, Bind.bind, Except.bind]⟩
    | bool b =>
      rw [gsaSafe.eq_3 k (Val.bool b) rest dd (fun _ hd => Val.noConfusion hd),
        Bool.true_and] at h
      obtain ⟨tail, htl⟩ := ihRest h
      exact ⟨(k, lookupD dd k .none) :: tail,
        by simp [get_shared_attrs, pyGet_dict, htl, Bind.bind, Except.bind]⟩
    | int n =>
      rw [gsaSafe.eq_3 k (Val.int n) rest dd (fun _ hd => Val.noConfusion hd),
        Bool.true_and] at h
      obtain ⟨tail, htl⟩ := ihRest h
      exact ⟨(k, lookupD dd k .none) :: tail,
        by simp [get_shared_attrs, pyGet_dict, htl, Bind.bind, Except.bind]⟩
    | str s =>
      rw [gsaSafe.eq_3 k (Val.str s) rest dd (fun _ hd => Val.noConfusion hd),
        Bool.true_and] at h
      obtain ⟨tail, htl⟩ := ihRest h
      exact ⟨(k, lookupD dd k .none) :: tail,
        by simp [get_shared_attrs, pyGet_dict, htl, Bind.bind, Except.bind]⟩
  | case3 o1 k v rest hno =>
    rw [gsaSafe.eq_4 o1 k v rest hno] at h
    exact (Bool.false_ne_true h).elim

/-- C1 amended: diff_objects terminates with a DiffResult whenever the
projection is safe, that is whenever no nested mapping value of new meets
a non-dict receiver in existing; at such a type mismatch with a non-empty
nested mapping the code instead raises AttributeError, so the mismatch
does not surface as a FieldChange of kind changed. -/
theorem c1_diff_total_when_projection_safe (existing new : List (String × Val))
    (h : gsaSafe (Val.dict existing) new = true) :
    ∃ r : Bool × List FieldChange, diff_objects existing new = .ok r := by
  obtain ⟨shared, hs⟩ := gsa_ok (Val.dict existing) new h
  refine ⟨((structDiff [] (Val.dict new) (Val.dict shared)).length == 0,
           structDiff [] (Val.dict new) (Val.dict shared)), ?_⟩
  simp [diff_objects, hs, Bind.bind, Except.bind]

/-- Witness for the amended C1: a scalar under a top-level key of new is
a safe shape over the empty existing, and diff_objects returns a
DiffResult there. -/
theorem c1_diff_total_witness :
    gsaSafe (Val.dict []) [("a", Val.int 1)] = true ∧
    ∃ r : Bool × List FieldChange, diff_objects [] [("a", Val.int 1)] = .ok r :=
  ⟨by simp [gsaSafe],
   c1_diff_total_when_projection_safe [] [("a", Val.int 1)] (by simp [gsaSafe])⟩

/-- Popping an absent key is the identity, so eraseKey is exactly eraseP
at the alias key. -/
theorem eraseKey_eq_eraseP (ps : List (String × Val)) (a : String) :
    eraseKey ps a = ps.eraseP (fun p => p.1 == a) := by
  by_cases h : ps.any (fun p => p.1 == a) = true
  · simp [eraseKey, h]
  · have h2 : ∀ x ∈ ps, ¬((fun p : String × Val => p.1 == a) x = true) := by
      simp only [List.any_eq_true] at h
      push_neg at h
      simpa using h
    simp [eraseKey, h, List.eraseP_of_forall_not h2]

/-- On a mapping with no duplicate keys, erasing the first entry at a key
is filtering out every entry at that key. -/
theorem eraseP_eq_filter_of_nodup (a : String) (ps : List (String × Val))
    (h : (ps.map Prod.fst).Nodup) :
    ps.eraseP (fun p => p.1 == a) = ps.filter (fun p => p.1 != a) := by
  induction ps with
  | nil => rfl
  | cons q t ih =>
    rw [List.map_cons, List.nodup_cons] at h
    by_cases hq : q.1 = a
    · have hcond : (q.1 == a) = true := by simpa using hq
      have hfil : t.filter (fun p => p.1 != a) = t :=
        List.filter_eq_self.mpr fun x hx => by
          have hxa : x.1 ≠ a := by
            intro e
            exact h.1 (by rw [hq, ← e]; exact List.mem_map_of_mem Prod.fst hx)
          simpa using hxa
      simp [List.eraseP_cons, List.filter_cons, hcond, hfil, hq]
    · have hcond : (q.1 == a) = false := by simpa using hq
      simp [List.eraseP_cons, List.filter_cons, hcond, ih h.2, hq]

/-- Membership after popping every alias of one entry: an entry survives
iff it was there and its key is none of the aliases; no duplicate keys
appear. -/
theorem eraseAliases_mem (as : List String) :
    ∀ ps : List (String × Val), (ps.map Prod.fst).Nodup →
      ((eraseAliases ps as).map Prod.fst).Nodup ∧
      ∀ q : String × Val, q ∈ eraseAliases ps as ↔ q ∈ ps ∧ q.1 ∉ as := by
  induction as with
  | nil => exact fun ps h => ⟨h, fun q => by simp [eraseAliases]⟩
  | cons a as ih =>
    intro ps h
    have hsub : List.Sublist (eraseKey ps a) ps := by
      rw [eraseKey_eq_eraseP]; exact List.eraseP_sublist ps
    have hn : ((eraseKey ps a).map Prod.fst).Nodup := h.sublist (hsub.map Prod.fst)
    have heq : eraseAliases ps (a :: as) = eraseAliases (eraseKey ps a) as := rfl
    obtain ⟨hn2, hmem⟩ := ih (eraseKey ps a) hn
    refine ⟨heq ▸ hn2, fun q => ?_⟩
    rw [heq, hmem q, eraseKey_eq_eraseP, eraseP_eq_filter_of_nodup a ps h,
      List.mem_filter]
    simp only [bne_iff_ne, List.mem_cons, ne_eq]
    constructor
    · rintro ⟨⟨hmem2, hne⟩, hnin⟩
      exact ⟨hmem2, by rintro (rfl | hin) <;> simp_all⟩
    · rintro ⟨hmem2, hnot⟩
      exact ⟨⟨hmem2, fun e => hnot (Or.inl e)⟩, fun hin => hnot (Or.inr hin)⟩

/-- Membership after alias normalization: an entry survives iff it was
there and its key is no declared alias of any argspec entry. -/
theorem remove_aliases_mem (argspec : List (String × List String)) :
    ∀ ps : List (String × Val), (ps.map Prod.fst).Nodup →
      ((remove_aliases argspec ps).map Prod.fst).Nodup ∧
      ∀ q : String × Val, q ∈ remove_aliases argspec ps ↔
        q ∈ ps ∧ ∀ e ∈ argspec, q.1 ∉ e.2 := by
  induction argspec with
  | nil => exact fun ps h => ⟨h, fun q => by simp [remove_aliases]⟩
  | cons e rest ih =>
    intro ps h
    obtain ⟨hn, hm⟩ := eraseAliases_mem e.2 ps h
    have heq : remove_aliases (e :: rest) ps =
        remove_aliases rest (eraseAliases ps e.2) := rfl
    obtain ⟨hn2, hm2⟩ := ih (eraseAliases ps e.2) hn
    refine ⟨heq ▸ hn2, fun q => ?_⟩
    rw [heq, hm2 q, hm q]
    simp only [List.forall_mem_cons]
    tauto

/-- C9: alias normalization removes every entry whose key is a declared
alias of some argspec entry, for every entry of the schema whether or not
the canonical key is present, raises no error on an absent alias, keeps
exactly the entries whose key is no declared alias, and on the example
schema the api entry is gone while name survives. -/
theorem c9_remove_aliases_spec (argspec : List (String × List String))
    (params : List (String × Val)) (h : (params.map Prod.fst).Nodup) :
    (∀ q ∈ remove_aliases argspec params, q ∈ params ∧ ∀ e ∈ argspec, q.1 ∉ e.2) ∧
    (∀ q ∈ params, (∀ e ∈ argspec, q.1 ∉ e.2) → q ∈ remove_aliases argspec params) ∧
    remove_aliases argspecAliases [("api", Val.str "v1"), ("name", Val.str "x")] =
      [("name", Val.str "x")] := by
  obtain ⟨_, hm⟩ := remove_aliases_mem argspec params h
  exact ⟨fun q hq => (hm q).1 hq, fun q hq hna => (hm q).2 ⟨hq, hna⟩, rfl⟩

/-- Witness for C9: on the example schema and params the api alias entry
is removed and the name entry survives unchanged. -/
theorem c9_remove_aliases_witness :
    remove_aliases argspecAliases [("api", Val.str "v1"), ("name", Val.str "x")] =
      [("name", Val.str "x")] :=
  (c9_remove_aliases_spec argspecAliases
    [("api", Val.str "v1"), ("name", Val.str "x")] (by simp)).2.2

end K8sCommon
